import Mathlib

/-
Verification development for the zeno-cli repository.

The JavaScript sources (src/file.js, src/zeno.js) are shallowly embedded
below.  JavaScript strings are modelled as Lean `String`s, with the
JavaScript string primitives (trim, includes, startsWith, toLowerCase)
re-implemented over their underlying character lists.  Node's
`path.resolve` is modelled for POSIX paths with an absolute base
directory (the program only ever passes absolute working directories:
they come from `path.resolve(chosenDir)` or `process.cwd()`).
Filesystem and process effects are modelled by explicit operation lists
and oracle parameters, so that "performs no filesystem mutation" is the
statement that the returned operation list is empty.
-/

namespace Zeno

/-! ### JavaScript string primitives -/

def isJsWhitespace (c : Char) : Bool :=
  c = ' ' || c = '\t' || c = '\n' || c = '\r' || c = '\x0b' || c = '\x0c'

def trimLeftChars (l : List Char) : List Char :=
  l.dropWhile isJsWhitespace

def trimRightChars (l : List Char) : List Char :=
  (l.reverse.dropWhile isJsWhitespace).reverse

def trimChars (l : List Char) : List Char :=
  trimLeftChars (trimRightChars l)

/-- JavaScript `String.prototype.trim`. -/
def jsTrim (s : String) : String :=
  ⟨trimChars s.data⟩

/-- JavaScript `String.prototype.includes` (substring containment). -/
def jsIncludes (s pat : String) : Bool :=
  decide (pat.data <:+: s.data)

/-- JavaScript `String.prototype.startsWith`. -/
def jsStartsWith (s pre : String) : Bool :=
  pre.data.isPrefixOf s.data

/-- JavaScript `String.prototype.toLowerCase` (ASCII fragment). -/
def jsToLower (s : String) : String :=
  ⟨s.data.map Char.toLower⟩

/-! ### Node `path.resolve` (POSIX, absolute base) -/

def splitSlashAux : List Char → List Char → List (List Char)
  | [], acc => if acc.isEmpty then [] else [acc.reverse]
  | c :: rest, acc =>
    if c = '/' then
      if acc.isEmpty then splitSlashAux rest []
      else acc.reverse :: splitSlashAux rest []
    else splitSlashAux rest (c :: acc)

/-- Split a path into its non-empty slash-separated segments. -/
def splitSlash (l : List Char) : List (List Char) :=
  splitSlashAux l []

/-- Process `.` and `..` segments of an absolute path (at the root, `..`
stays at the root, as in Node). -/
def normStack (segs : List (List Char)) : List (List Char) :=
  segs.foldl
    (fun acc seg =>
      if seg = ['.'] then acc
      else if seg = ['.', '.'] then acc.dropLast
      else acc ++ [seg])
    []

def joinAbs (segs : List (List Char)) : List Char :=
  '/' :: List.intercalate ['/'] segs

/-- Node `path.resolve(p)` for an absolute `p` (normalisation). -/
def pathResolve1 (p : String) : String :=
  ⟨joinAbs (normStack (splitSlash p.data))⟩

/-- Node `path.resolve(base, p)` for an absolute `base`. -/
def pathResolve (base p : String) : String :=
  if p.data.head? = some '/' then pathResolve1 p
  else pathResolve1 ⟨base.data ++ '/' :: p.data⟩

/-! ### src/file.js -/

/-- A JavaScript argument value as seen by the path/command validation:
either an actual string or any non-string value (undefined, null,
numbers, objects, ...).  The validation `!v || typeof v !== 'string'`
rejects every non-string value, so they need not be distinguished. -/
inductive JsArg where
  | nonStr
  | str (s : String)
deriving DecidableEq

/-- A filesystem mutation attempted by an executor. -/
inductive FsOp where
  | write (absPath content : String)
  | rename (oldAbs newAbs : String)
deriving DecidableEq

/-- The validation `!p || typeof p !== 'string' || p.includes('..')`
shared by `createNewFile` and `renameFile`. -/
def invalidPathArg : JsArg → Bool
  | .nonStr => true
  | .str s => decide (s = "") || jsIncludes s ".."

/-- `createNewFile` from src/file.js.  `writeErr` is the oracle for the
`fs.writeFile` call: `none` means the write succeeds, `some m` means it
throws an error with message `m`.  The first component lists the
filesystem mutations attempted. -/
def createNewFile (basePath : String) (relativeFilePath : JsArg)
    (fileContent : Option String) (writeErr : Option String) :
    List FsOp × String :=
  if invalidPathArg relativeFilePath then
    ([], "Error: Invalid or potentially unsafe file path for new_file.")
  else
    match relativeFilePath with
    | .nonStr => ([], "Error: Invalid or potentially unsafe file path for new_file.")
    | .str s =>
      let absoluteFilePath := pathResolve basePath s
      if !(jsStartsWith absoluteFilePath (pathResolve1 basePath)) then
        ([], "Error: File path is outside the allowed working directory for new_file.")
      else
        match writeErr with
        | none =>
          ([FsOp.write absoluteFilePath (fileContent.getD "")],
           "File \"" ++ s ++ "\" created successfully in " ++ basePath ++ ".")
        | some m =>
          ([FsOp.write absoluteFilePath (fileContent.getD "")],
           "Error creating file \"" ++ s ++ "\": " ++ m)

/-- `renameFile` from src/file.js.  `renameErr` is the oracle for the
`fs.rename` call. -/
def renameFile (basePath : String) (relativeOldPath relativeNewPath : JsArg)
    (renameErr : Option String) : List FsOp × String :=
  if invalidPathArg relativeOldPath || invalidPathArg relativeNewPath then
    ([], "Error: Invalid or potentially unsafe file paths for modify_file (rename).")
  else
    match relativeOldPath, relativeNewPath with
    | .str oldS, .str newS =>
      let absoluteOldPath := pathResolve basePath oldS
      let absoluteNewPath := pathResolve basePath newS
      if !(jsStartsWith absoluteOldPath (pathResolve1 basePath)) ||
         !(jsStartsWith absoluteNewPath (pathResolve1 basePath)) then
        ([], "Error: File paths are outside the allowed working directory for modify_file (rename).")
      else
        match renameErr with
        | none =>
          ([FsOp.rename absoluteOldPath absoluteNewPath],
           "File \"" ++ oldS ++ "\" renamed/moved to \"" ++ newS ++ "\" successfully in " ++ basePath ++ ".")
        | some m =>
          ([FsOp.rename absoluteOldPath absoluteNewPath],
           "Error renaming file \"" ++ oldS ++ "\" to \"" ++ newS ++ "\": " ++ m)
    | _, _ => ([], "Error: Invalid or potentially unsafe file paths for modify_file (rename).")

/-- The raw data handed to the `exec` callback: an optional error (its
message) plus the captured output streams. -/
structure ExecCallback where
  error : Option String
  stdout : String
  stderr : String
deriving DecidableEq

/-- The value `execPromise` resolves with. -/
structure ExecRes where
  success : Bool
  stdout : String
  stderr : String
  error : Option String
deriving DecidableEq

/-- `execPromise` from src/file.js: on error it resolves (never rejects)
with `stderr || error.message` as the stderr field. -/
def execPromise (cb : ExecCallback) : ExecRes :=
  match cb.error with
  | some m =>
    { success := false, stdout := cb.stdout,
      stderr := if cb.stderr = "" then m else cb.stderr, error := some m }
  | none =>
    { success := true, stdout := cb.stdout, stderr := cb.stderr, error := none }

/-- The `if (stdout) result += ...` contribution in `runShellCommand`. -/
def stdoutPart (r : ExecRes) : String :=
  if r.stdout = "" then "" else "Stdout:\n" ++ r.stdout ++ "\n"

/-- The `if (stderr) result += ...` contribution in `runShellCommand`. -/
def stderrPart (r : ExecRes) : String :=
  if r.stderr = "" then "" else "Stderr:\n" ++ r.stderr ++ "\n"

/-- The `if (!success && error) result += ...` contribution in
`runShellCommand`. -/
def execErrorPart (r : ExecRes) : String :=
  match r.success, r.error with
  | false, some m => "Execution Error: " ++ m ++ "\n"
  | _, _ => ""

/-- The accumulated `result` string of `runShellCommand` before the
empty-output fallback. -/
def composedOutput (r : ExecRes) : String :=
  stdoutPart r ++ stderrPart r ++ execErrorPart r

/-- `runShellCommand` from src/file.js.  The shell itself is the oracle
`cb`; the function always returns an outcome string. -/
def runShellCommand (basePath : String) (commandToRun : JsArg)
    (cb : ExecCallback) : String :=
  match commandToRun with
  | .nonStr => "Error: Invalid command for run_command."
  | .str c =>
    if c = "" then "Error: Invalid command for run_command."
    else
      jsTrim (if composedOutput (execPromise cb) = "" then
                "Command executed, no output produced."
              else composedOutput (execPromise cb))

/-! ### src/zeno.js — transcript turns and the confirmation gate -/

/-- One transcript entry, as pushed onto `chatHistory`. -/
inductive Turn where
  | userText (text : String)
  | modelText (text : String)
  | modelActionRequest (name : String) (argsJson : String)
  | toolOutcome (name : String) (content : String)
deriving DecidableEq

structure ConfirmDecision where
  confirmed : Bool
  explain : Bool
deriving DecidableEq

/-- One round of the initial confirmation prompt
(`Confirm? (1: Yes, 2: No, 3: Explain action)`): `none` means the input
was invalid and the prompt repeats. -/
def confirmStep (choice : String) : Option ConfirmDecision :=
  if choice = "1" then some { confirmed := true, explain := false }
  else if choice = "2" then some { confirmed := false, explain := false }
  else if choice = "3" then some { confirmed := false, explain := true }
  else none

/-- The initial confirmation prompt loop, consuming a script of user
inputs; returns the decision and the unconsumed inputs, or `none` when
the script runs out while the loop is still re-prompting. -/
def confirmLoop : List String → Option (ConfirmDecision × List String)
  | [] => none
  | choice :: rest =>
    match confirmStep choice with
    | some d => some (d, rest)
    | none => confirmLoop rest

/-- One round of the post-explanation prompt
(`Confirm action? (1: Yes, 2: No)`). -/
def reconfirmStep (choice : String) : Option Bool :=
  if choice = "1" then some true
  else if choice = "2" then some false
  else none

/-- The post-explanation prompt loop. -/
def reconfirmLoop : List String → Option (Bool × List String)
  | [] => none
  | choice :: rest =>
    match reconfirmStep choice with
    | some b => some (b, rest)
    | none => reconfirmLoop rest

/-- The banner printed by `handleToolConfirmation` before its prompt
loop. -/
def confirmationBanner (name argsJson currentDir : String) : List String :=
  ["--- ACTION CONFIRMATION ---",
   "Zeno wants to perform the following action:",
   "Tool: " ++ name,
   "Arguments: " ++ argsJson]
  ++ (if name = "web_search" then [] else ["In directory: " ++ currentDir])
  ++ (if name = "run_command" then ["WARNING: Executing shell commands can be dangerous!"] else [])

/-- `handleToolConfirmation` from src/zeno.js: print the banner, then
run the three-way prompt loop. -/
def handleToolConfirmation (name argsJson currentDir : String)
    (script : List String) :
    List String × Option (ConfirmDecision × List String) :=
  (confirmationBanner name argsJson currentDir, confirmLoop script)

/-- The banner printed before the post-explanation reconfirmation. -/
def reconfirmationBanner : List String :=
  ["--- ACTION CONFIRMATION (after explanation) ---"]

def deniedMessage : String := "User denied execution of this action."

/-- The synthetic user turn pushed when an explanation is requested. -/
def explanationNotice (name : String) : String :=
  "(System: User requested explanation for your proposed action: " ++ name ++ ")"

/-- The outcome of handling one model tool call in `main`'s loop. -/
structure HandlerOutcome where
  appends : List Turn
  dispatched : Bool
  continueLoop : Bool
deriving DecidableEq

/-- The tool-call handling branch of `main` (src/zeno.js, the
`if (aggregatedFunctionCall)` branch).  `script` is the sequence of
user keystrokes offered to the prompt loops; `explanationText` is the
model's streamed explanation should one be requested; `execOutcome` is
the outcome string the dispatch switch would produce.  The first
component collects the confirmation banners displayed; the second is
`none` when the script is exhausted while a prompt loop is still
re-prompting (the program would still be awaiting user input). -/
def handleToolCall (name argsJson currentDir : String) (script : List String)
    (explanationText : String) (execOutcome : String) :
    List (List String) × Option HandlerOutcome :=
  if name = "web_search" then
    ([],
     some { appends := [Turn.modelActionRequest name argsJson,
                        Turn.toolOutcome name execOutcome],
            dispatched := true, continueLoop := true })
  else
    match (handleToolConfirmation name argsJson currentDir script).2 with
    | none => ([confirmationBanner name argsJson currentDir], none)
    | some (d, rest) =>
      if d.explain then
        match reconfirmLoop rest with
        | none => ([confirmationBanner name argsJson currentDir, reconfirmationBanner], none)
        | some (conf, _) =>
          if conf then
            ([confirmationBanner name argsJson currentDir, reconfirmationBanner],
             some { appends := [Turn.modelActionRequest name argsJson,
                                Turn.userText (explanationNotice name),
                                Turn.modelText explanationText,
                                Turn.modelActionRequest name argsJson,
                                Turn.toolOutcome name execOutcome],
                    dispatched := true, continueLoop := true })
          else
            ([confirmationBanner name argsJson currentDir, reconfirmationBanner],
             some { appends := [Turn.modelActionRequest name argsJson,
                                Turn.userText (explanationNotice name),
                                Turn.modelText explanationText,
                                Turn.modelActionRequest name argsJson,
                                Turn.toolOutcome name deniedMessage],
                    dispatched := false, continueLoop := true })
      else if d.confirmed then
        ([confirmationBanner name argsJson currentDir],
         some { appends := [Turn.modelActionRequest name argsJson,
                            Turn.toolOutcome name execOutcome],
                dispatched := true, continueLoop := true })
      else
        ([confirmationBanner name argsJson currentDir],
         some { appends := [Turn.modelActionRequest name argsJson,
                            Turn.toolOutcome name deniedMessage],
                dispatched := false, continueLoop := true })

/-! ### src/zeno.js — session state, config persistence, mode toggle -/

/-- JavaScript truthiness of an optional string value. -/
def truthy : Option String → Bool
  | none => false
  | some s => decide (s ≠ "")

/-- The module-level mutable state of src/zeno.js that the session/mode
controller reads and writes. -/
structure SessionState where
  apiKey : Option String
  isFilesModeEnabled : Bool
  filesWorkingDirectory : Option String
  tempFilesWorkingDirectory : Option String
deriving DecidableEq

/-- The record written to config.json. -/
structure SavedConfig where
  apiKey : Option String
  filesWorkingDirectory : Option String
deriving DecidableEq

/-- `saveConfig` from src/zeno.js: the directory field is included only
when `filesWorkingDirectory && !tempFilesWorkingDirectory`. -/
def saveConfig (st : SessionState) : SavedConfig :=
  { apiKey := st.apiKey,
    filesWorkingDirectory :=
      if truthy st.filesWorkingDirectory && !truthy st.tempFilesWorkingDirectory then
        st.filesWorkingDirectory
      else none }

/-- The parsed contents of config.json as read back at startup. -/
structure RawConfig where
  apiKey : Option String
  filesWorkingDirectory : Option String
deriving DecidableEq

/-- The session fields `loadConfig` establishes at startup. -/
structure LoadedSession where
  apiKey : Option String
  filesWorkingDirectory : Option String
  isFilesModeEnabled : Bool
deriving DecidableEq

/-- `loadConfig` from src/zeno.js.  `readResult` is `none` when the
config file is missing or unparsable (the catch branch). -/
def loadConfig (readResult : Option RawConfig) : LoadedSession :=
  match readResult with
  | none =>
    { apiKey := none, filesWorkingDirectory := none, isFilesModeEnabled := false }
  | some config =>
    let fwd := if truthy config.filesWorkingDirectory then config.filesWorkingDirectory else none
    { apiKey := config.apiKey, filesWorkingDirectory := fwd,
      isFilesModeEnabled := truthy fwd }

/-- Result of `fs.stat` on the directory the user typed. -/
inductive StatOutcome where
  | isDir
  | notDir
  | statError (msg : String)
deriving DecidableEq

structure ToggleResult where
  state : SessionState
  saved : Option SavedConfig
  promptedForDirectory : Bool
deriving DecidableEq

/-- `toggleFilesMode` from src/zeno.js.  `input` is the answer the user
would give to the directory prompt, `stat` the filesystem oracle, `cwd`
the value of `process.cwd()`.  `saved` records the config written by a
`saveConfig()` call, if one happens; `promptedForDirectory` records
whether the `Enter full path ... or type 'this_folder'` question was
asked. -/
def toggleFilesMode (st : SessionState) (input : String)
    (stat : String → StatOutcome) (cwd : String) : ToggleResult :=
  if st.isFilesModeEnabled then
    let st' := { st with isFilesModeEnabled := false }
    { state := st', saved := some (saveConfig st'), promptedForDirectory := false }
  else
    let chosenDir := jsTrim input
    if jsToLower chosenDir = "this_folder" then
      let st' := { st with tempFilesWorkingDirectory := some cwd,
                           filesWorkingDirectory := none,
                           isFilesModeEnabled := true }
      { state := st', saved := none, promptedForDirectory := true }
    else if chosenDir ≠ "" then
      match stat chosenDir with
      | .isDir =>
        let st' := { st with filesWorkingDirectory := some (pathResolve cwd chosenDir),
                             tempFilesWorkingDirectory := none,
                             isFilesModeEnabled := true }
        { state := st', saved := some (saveConfig st'), promptedForDirectory := true }
      | _ => { state := st, saved := none, promptedForDirectory := true }
    else
      { state := st, saved := none, promptedForDirectory := true }

/-! ### Specification-side predicates -/

/-- The resolved path `p` lies outside the directory tree rooted at the
resolved working directory `dir`: it is neither that directory itself
nor below it. -/
def outsideDir (dir p : String) : Prop :=
  ¬ (p = pathResolve1 dir) ∧ ¬ ((pathResolve1 dir ++ "/").data <+: p.data)

instance (dir p : String) : Decidable (outsideDir dir p) := by
  unfold outsideDir; infer_instance

/-- The string contains a parent-directory traversal segment: a `..`
bounded on the left by the string start or a slash, and on the right by
the string end or a slash. -/
def hasParentSegment (s : String) : Prop :=
  ∃ a b, s.data = a ++ ['.', '.'] ++ b ∧
    (a = [] ∨ ∃ a', a = a' ++ ['/']) ∧
    (b = [] ∨ ∃ b', b = '/' :: b')

end Zeno

namespace Zeno

/-! ## Helper lemmas -/

theorem jsIncludes_dotdot_of_hasParentSegment {s : String} (h : hasParentSegment s) :
    jsIncludes s ".." = true := by
  obtain ⟨a, b, hs, -, -⟩ := h
  unfold jsIncludes
  apply decide_eq_true
  exact ⟨a, b, by rw [hs]⟩

theorem invalidPathArg_true_of_hasParentSegment {s : String} (h : hasParentSegment s) :
    invalidPathArg (.str s) = true := by
  simp only [invalidPathArg, jsIncludes_dotdot_of_hasParentSegment h, Bool.or_true]

/-! ## C1 -/

/-- C1: the claim states that every path argument resolving to an
absolute path outside the working directory is rejected by the prefix
check before any mutation.  This is false: with working directory
`/foo`, the argument `/foobar/x` resolves to `/foobar/x`, which lies
outside `/foo` yet passes the string-prefix check
`startsWith(path.resolve(basePath))`, so `createNewFile` proceeds to
write the file and reports success. -/
theorem c1_outside_counterexample :
    outsideDir "/foo" (pathResolve "/foo" "/foobar/x") ∧
    createNewFile "/foo" (.str "/foobar/x") none none =
      ([FsOp.write "/foobar/x" ""],
       "File \"/foobar/x\" created successfully in /foo.") := by
  exact ⟨by decide, by decide⟩

/-- C1 (amended): for every path argument that passes the basic
validation, `createNewFile` and `renameFile` return a descriptive error
outcome and perform no filesystem mutation whenever the resolved
absolute path does not have the resolved working directory as a
*string prefix* (for `renameFile`, whenever either resolved path fails
this test); resolved paths outside the working directory that share its
string prefix are not rejected by this check. -/
theorem c1_prefix_check_rejects :
    ∀ (basePath s : String) (content : Option String) (werr : Option String)
      (oldS newS : String) (rerr : Option String),
      (invalidPathArg (.str s) = false →
        jsStartsWith (pathResolve basePath s) (pathResolve1 basePath) = false →
        createNewFile basePath (.str s) content werr =
          ([], "Error: File path is outside the allowed working directory for new_file.")) ∧
      (invalidPathArg (.str oldS) = false →
        invalidPathArg (.str newS) = false →
        (jsStartsWith (pathResolve basePath oldS) (pathResolve1 basePath) = false ∨
         jsStartsWith (pathResolve basePath newS) (pathResolve1 basePath) = false) →
        renameFile basePath (.str oldS) (.str newS) rerr =
          ([], "Error: File paths are outside the allowed working directory for modify_file (rename).")) := by
  intro basePath s content werr oldS newS rerr
  constructor
  · intro hv hp
    simp [createNewFile, hv, hp]
  · intro hvo hvn hor
    rcases hor with h | h <;> simp [renameFile, hvo, hvn, h]

/-- Witness for C1 (amended): a typical absolute-path argument outside
the working directory is rejected with no mutation, for both
executors. -/
theorem c1_prefix_check_rejects_witness :
    createNewFile "/home/u/w" (.str "/etc/passwd") none none =
      ([], "Error: File path is outside the allowed working directory for new_file.") ∧
    renameFile "/home/u/w" (.str "a.txt") (.str "/etc/passwd") none =
      ([], "Error: File paths are outside the allowed working directory for modify_file (rename).") :=
  ⟨(c1_prefix_check_rejects "/home/u/w" "/etc/passwd" none none "a.txt" "/etc/passwd" none).1
      (by decide) (by decide),
   (c1_prefix_check_rejects "/home/u/w" "/etc/passwd" none none "a.txt" "/etc/passwd" none).2
      (by decide) (by decide) (Or.inr (by decide))⟩

/-! ## C2 -/

/-- C2: every relative path argument that is empty, not a string, or
contains a parent-directory traversal segment is rejected by
`createNewFile` and `renameFile` with the validation error outcome and
no filesystem mutation; for `renameFile` the rejection happens when
either of the two paths fails validation, with neither path touched
(the returned operation list is empty). -/
theorem c2_validation_rejects :
    ∀ (basePath : String) (content : Option String) (werr rerr : Option String)
      (s : String) (a b : JsArg),
      (createNewFile basePath .nonStr content werr =
        ([], "Error: Invalid or potentially unsafe file path for new_file.")) ∧
      (createNewFile basePath (.str "") content werr =
        ([], "Error: Invalid or potentially unsafe file path for new_file.")) ∧
      (hasParentSegment s →
        createNewFile basePath (.str s) content werr =
          ([], "Error: Invalid or potentially unsafe file path for new_file.")) ∧
      (renameFile basePath .nonStr b rerr =
        ([], "Error: Invalid or potentially unsafe file paths for modify_file (rename).")) ∧
      (renameFile basePath a .nonStr rerr =
        ([], "Error: Invalid or potentially unsafe file paths for modify_file (rename).")) ∧
      (renameFile basePath (.str "") b rerr =
        ([], "Error: Invalid or potentially unsafe file paths for modify_file (rename).")) ∧
      (renameFile basePath a (.str "") rerr =
        ([], "Error: Invalid or potentially unsafe file paths for modify_file (rename).")) ∧
      (hasParentSegment s →
        renameFile basePath (.str s) b rerr =
          ([], "Error: Invalid or potentially unsafe file paths for modify_file (rename).")) ∧
      (hasParentSegment s →
        renameFile basePath a (.str s) rerr =
          ([], "Error: Invalid or potentially unsafe file paths for modify_file (rename).")) := by
  intro basePath content werr rerr s a b
  refine ⟨by simp [createNewFile, invalidPathArg], by simp [createNewFile, invalidPathArg],
    fun h => ?_, by simp [renameFile, invalidPathArg], by simp [renameFile, invalidPathArg],
    by simp [renameFile, invalidPathArg], by simp [renameFile, invalidPathArg],
    fun h => ?_, fun h => ?_⟩
  · simp [createNewFile, invalidPathArg_true_of_hasParentSegment h]
  · simp [renameFile, invalidPathArg_true_of_hasParentSegment h]
  · simp [renameFile, invalidPathArg_true_of_hasParentSegment h]

/-- Witness for C2: the traversal argument `../x` is rejected by both
executors with no mutation. -/
theorem c2_validation_rejects_witness :
    createNewFile "/base" (.str "../x") none none =
      ([], "Error: Invalid or potentially unsafe file path for new_file.") ∧
    renameFile "/base" (.str "ok.txt") (.str "../x") none =
      ([], "Error: Invalid or potentially unsafe file paths for modify_file (rename).") := by
  have hseg : hasParentSegment "../x" :=
    ⟨[], ['/', 'x'], by decide, Or.inl rfl, Or.inr ⟨['x'], rfl⟩⟩
  exact
    ⟨((c2_validation_rejects "/base" none none none "../x" (.str "ok.txt") (.str "ok.txt")).2.2.1 hseg),
     ((c2_validation_rejects "/base" none none none "../x" (.str "ok.txt") (.str "ok.txt")).2.2.2.2.2.2.2.2 hseg)⟩

end Zeno

namespace Zeno

/-! ## C3 -/

/-- C3: a `web_search` action request is auto-approved: it is handled
without displaying any confirmation banner, for every input script, and
is dispatched with the loop continuing.  Every action request with any
other name always displays the confirmation banner first — presenting
the action name, the arguments and the active working directory — and
when no user input is available the handler does not resolve (it is
still waiting at the confirmation prompt). -/
theorem c3_web_search_auto_approved :
    ∀ (name argsJson currentDir explanationText execOutcome : String)
      (script : List String),
      (handleToolCall "web_search" argsJson currentDir script explanationText execOutcome =
        ([], some { appends := [Turn.modelActionRequest "web_search" argsJson,
                                Turn.toolOutcome "web_search" execOutcome],
                    dispatched := true, continueLoop := true })) ∧
      (name ≠ "web_search" →
        (handleToolCall name argsJson currentDir script explanationText execOutcome).1.head? =
          some (confirmationBanner name argsJson currentDir) ∧
        ("Tool: " ++ name) ∈ confirmationBanner name argsJson currentDir ∧
        ("Arguments: " ++ argsJson) ∈ confirmationBanner name argsJson currentDir ∧
        ("In directory: " ++ currentDir) ∈ confirmationBanner name argsJson currentDir ∧
        (handleToolCall name argsJson currentDir [] explanationText execOutcome).2 = none) := by
  intro name argsJson currentDir explanationText execOutcome script
  constructor
  · simp [handleToolCall]
  · intro h
    refine ⟨?_, ?_, ?_, ?_, ?_⟩
    · simp only [handleToolCall, if_neg h, handleToolConfirmation]
      repeat' split
      all_goals rfl
    · simp [confirmationBanner]
    · simp [confirmationBanner]
    · simp [confirmationBanner, h]
    · simp only [handleToolCall, if_neg h, handleToolConfirmation, confirmLoop]

/-- Witness for C3: instantiated both for `web_search` (no banner, auto
dispatch) and for `new_file` (banner shown, presenting name, arguments
and directory; handler unresolved with no input). -/
theorem c3_web_search_auto_approved_witness :
    (handleToolCall "web_search" "term=x" "/work" [] "e" "results" =
      ([], some { appends := [Turn.modelActionRequest "web_search" "term=x",
                              Turn.toolOutcome "web_search" "results"],
                  dispatched := true, continueLoop := true })) ∧
    (handleToolCall "new_file" "file_path=a" "/work" [] "e" "o").1.head? =
      some (confirmationBanner "new_file" "file_path=a" "/work") ∧
    ("In directory: " ++ "/work") ∈ confirmationBanner "new_file" "file_path=a" "/work" :=
  ⟨(c3_web_search_auto_approved "new_file" "term=x" "/work" "e" "results" []).1,
   ((c3_web_search_auto_approved "new_file" "file_path=a" "/work" "e" "o" []).2 (by decide)).1,
   ((c3_web_search_auto_approved "new_file" "file_path=a" "/work" "e" "o" []).2 (by decide)).2.2.2.1⟩

/-! ## C4 -/

/-- C4: the claim states that after every denial the transcript holds
exactly one ModelActionRequest turn for the request.  This is false for
a denial after an explanation round: with input script `3` (explain)
then `2` (deny), the handler appends the ModelActionRequest turn twice
(once when logging the intent before the explanation, once again
alongside the denial outcome). -/
theorem c4_denial_counterexample :
    (handleToolCall "new_file" "file_path=a.txt" "/work" ["3", "2"] "because" "unused").2.map
        (fun r => (r.appends.filter
          (fun t => decide (t = Turn.modelActionRequest "new_file" "file_path=a.txt"))).length) =
      some 2 := by
  decide

/-- C4 (amended): for every denied action request, the handler appends
exactly one ToolOutcome turn stating the denial, does not invoke the
capability executor, and continues the loop (prompting the model
again); the transcript gains exactly one ModelActionRequest turn when
the denial happens at the initial prompt, but two such turns when it
happens after an explanation round (the intent is logged once before
the explanation and once with the denial). -/
theorem c4_denial_no_dispatch :
    ∀ (name argsJson currentDir explanationText execOutcome : String)
      (script rest rest' : List String),
      name ≠ "web_search" →
      (confirmLoop script = some ({ confirmed := false, explain := false }, rest) →
        (handleToolCall name argsJson currentDir script explanationText execOutcome).2 =
          some { appends := [Turn.modelActionRequest name argsJson,
                             Turn.toolOutcome name deniedMessage],
                 dispatched := false, continueLoop := true }) ∧
      (confirmLoop script = some ({ confirmed := false, explain := true }, rest) →
        reconfirmLoop rest = some (false, rest') →
        (handleToolCall name argsJson currentDir script explanationText execOutcome).2 =
          some { appends := [Turn.modelActionRequest name argsJson,
                             Turn.userText (explanationNotice name),
                             Turn.modelText explanationText,
                             Turn.modelActionRequest name argsJson,
                             Turn.toolOutcome name deniedMessage],
                 dispatched := false, continueLoop := true }) := by
  intro name argsJson currentDir explanationText execOutcome script rest rest' h
  constructor
  · intro hc
    simp [handleToolCall, if_neg h, handleToolConfirmation, hc]
  · intro hc hr
    simp [handleToolCall, if_neg h, handleToolConfirmation, hc, hr]

/-- Witness for C4 (amended): a direct denial (invalid input then `2`)
and an explained denial (`3`, invalid input, `2`), both at concrete
inputs. -/
theorem c4_denial_no_dispatch_witness :
    ((handleToolCall "run_command" "command_to_run=ls" "/work" ["x", "2"] "e" "o").2 =
      some { appends := [Turn.modelActionRequest "run_command" "command_to_run=ls",
                         Turn.toolOutcome "run_command" deniedMessage],
             dispatched := false, continueLoop := true }) ∧
    ((handleToolCall "run_command" "command_to_run=ls" "/work" ["3", "9", "2"] "e" "o").2 =
      some { appends := [Turn.modelActionRequest "run_command" "command_to_run=ls",
                         Turn.userText (explanationNotice "run_command"),
                         Turn.modelText "e",
                         Turn.modelActionRequest "run_command" "command_to_run=ls",
                         Turn.toolOutcome "run_command" deniedMessage],
             dispatched := false, continueLoop := true }) :=
  ⟨(c4_denial_no_dispatch "run_command" "command_to_run=ls" "/work" "e" "o" ["x", "2"] [] []
      (by decide)).1 (by decide),
   (c4_denial_no_dispatch "run_command" "command_to_run=ls" "/work" "e" "o" ["3", "9", "2"] ["9", "2"] []
      (by decide)).2 (by decide) (by decide)⟩

/-! ## C8 -/

/-- C8: the confirmation gate never resolves on an out-of-range
response.  The initial prompt step resolves exactly on the three inputs
`1`, `2`, `3`; the post-explanation step resolves exactly on the two
inputs `1`, `2` (in particular, `3` — requesting an explanation again —
is not accepted a second time); an invalid input leaves both prompt
loops exactly where they were; a script of only invalid inputs never
produces a decision; and every decision produced by a loop comes from a
valid input of the script. -/
theorem c8_prompt_never_resolves_invalid :
    (∀ choice : String,
      (confirmStep choice).isSome = true ↔ (choice = "1" ∨ choice = "2" ∨ choice = "3")) ∧
    (∀ choice : String,
      (reconfirmStep choice).isSome = true ↔ (choice = "1" ∨ choice = "2")) ∧
    reconfirmStep "3" = none ∧
    (∀ (choice : String) (script : List String), confirmStep choice = none →
      confirmLoop (choice :: script) = confirmLoop script) ∧
    (∀ (choice : String) (script : List String), reconfirmStep choice = none →
      reconfirmLoop (choice :: script) = reconfirmLoop script) ∧
    (∀ script : List String, (∀ c ∈ script, confirmStep c = none) →
      confirmLoop script = none) ∧
    (∀ script : List String, (∀ c ∈ script, reconfirmStep c = none) →
      reconfirmLoop script = none) ∧
    (∀ (script rest : List String) (d : ConfirmDecision),
      confirmLoop script = some (d, rest) → ∃ c ∈ script, confirmStep c = some d) ∧
    (∀ (script rest : List String) (b : Bool),
      reconfirmLoop script = some (b, rest) → ∃ c ∈ script, reconfirmStep c = some b) := by
  refine ⟨?_, ?_, by decide, ?_, ?_, ?_, ?_, ?_, ?_⟩
  · intro choice
    unfold confirmStep
    split_ifs <;> simp_all
  · intro choice
    unfold reconfirmStep
    split_ifs <;> simp_all
  · intro choice script hc
    simp [confirmLoop, hc]
  · intro choice script hc
    simp [reconfirmLoop, hc]
  · intro script hall
    induction script with
    | nil => rfl
    | cons c rest ih =>
      have hc := hall c (by simp)
      simp only [confirmLoop, hc]
      exact ih fun x hx => hall x (by simp [hx])
  · intro script hall
    induction script with
    | nil => rfl
    | cons c rest ih =>
      have hc := hall c (by simp)
      simp only [reconfirmLoop, hc]
      exact ih fun x hx => hall x (by simp [hx])
  · intro script
    induction script with
    | nil => intro rest d hd; simp [confirmLoop] at hd
    | cons c rest ih =>
      intro rest' d hd
      simp only [confirmLoop] at hd
      rcases hc : confirmStep c with _ | d'
      · rw [hc] at hd
        obtain ⟨x, hx, hxs⟩ := ih rest' d hd
        exact ⟨x, by simp [hx], hxs⟩
      · rw [hc] at hd
        simp at hd
        exact ⟨c, by simp, by rw [hc, hd.1]⟩
  · intro script
    induction script with
    | nil => intro rest b hb; simp [reconfirmLoop] at hb
    | cons c rest ih =>
      intro rest' b hb
      simp only [reconfirmLoop] at hb
      rcases hc : reconfirmStep c with _ | b'
      · rw [hc] at hb
        obtain ⟨x, hx, hxs⟩ := ih rest' b hb
        exact ⟨x, by simp [hx], hxs⟩
      · rw [hc] at hb
        simp at hb
        exact ⟨c, by simp, by rw [hc, hb.1]⟩

/-- Witness for C8: an invalid input re-prompts without advancing, and
a script of invalid inputs never resolves. -/
theorem c8_prompt_never_resolves_invalid_witness :
    confirmLoop ["yes", "1"] = confirmLoop ["1"] ∧
    reconfirmLoop ["3", "2"] = reconfirmLoop ["2"] ∧
    confirmLoop ["0", "4", "yes"] = none :=
  ⟨c8_prompt_never_resolves_invalid.2.2.2.1 "yes" ["1"] (by decide),
   c8_prompt_never_resolves_invalid.2.2.2.2.1 "3" ["2"] (by decide),
   c8_prompt_never_resolves_invalid.2.2.2.2.2.1 ["0", "4", "yes"] (by decide)⟩

end Zeno

namespace Zeno

/-! ## C5 -/

/-- C5: the claim states that disabling file capability clears the
persisted working directory from the saved configuration.  This is
false when the active directory is a persisted (non-temporary) one:
disabling with `filesWorkingDirectory = /data` saves a configuration
that still contains `/data`. -/
theorem c5_disable_counterexample :
    (toggleFilesMode
        { apiKey := some "k", isFilesModeEnabled := true,
          filesWorkingDirectory := some "/data", tempFilesWorkingDirectory := none }
        "" (fun _ => StatOutcome.notDir) "/cwd").state.isFilesModeEnabled = false ∧
    (toggleFilesMode
        { apiKey := some "k", isFilesModeEnabled := true,
          filesWorkingDirectory := some "/data", tempFilesWorkingDirectory := none }
        "" (fun _ => StatOutcome.notDir) "/cwd").saved =
      some { apiKey := some "k", filesWorkingDirectory := some "/data" } :=
  ⟨rfl, rfl⟩

/-- C5 (amended): when file capability is enabled, the toggle operation
disables it and saves the configuration; the saved configuration
contains no working-directory path when the active directory was the
temporary one, while a previously persisted working directory remains
in the saved configuration. -/
theorem c5_disable_saves :
    ∀ (st : SessionState) (input : String) (stat : String → StatOutcome) (cwd : String),
      st.isFilesModeEnabled = true →
      (toggleFilesMode st input stat cwd).state.isFilesModeEnabled = false ∧
      (toggleFilesMode st input stat cwd).saved =
        some (saveConfig { st with isFilesModeEnabled := false }) ∧
      (truthy st.tempFilesWorkingDirectory = true →
        (saveConfig { st with isFilesModeEnabled := false }).filesWorkingDirectory = none) ∧
      (truthy st.tempFilesWorkingDirectory = false →
        (saveConfig { st with isFilesModeEnabled := false }).filesWorkingDirectory =
          (if truthy st.filesWorkingDirectory then st.filesWorkingDirectory else none)) := by
  intro st input stat cwd h
  refine ⟨by simp [toggleFilesMode, h], by simp [toggleFilesMode, h], ?_, ?_⟩
  · intro ht
    simp [saveConfig, ht]
  · intro ht
    by_cases hf : truthy st.filesWorkingDirectory <;> simp [saveConfig, ht, hf]

/-- Witness for C5 (amended): disabling while the temporary directory
is active saves a configuration without a working-directory path. -/
theorem c5_disable_saves_witness :
    (toggleFilesMode
        { apiKey := some "k", isFilesModeEnabled := true,
          filesWorkingDirectory := none, tempFilesWorkingDirectory := some "/here" }
        "" (fun _ => StatOutcome.notDir) "/cwd").state.isFilesModeEnabled = false ∧
    (saveConfig { apiKey := some "k", isFilesModeEnabled := false,
                  filesWorkingDirectory := none,
                  tempFilesWorkingDirectory := some "/here" }).filesWorkingDirectory = none :=
  ⟨(c5_disable_saves
      { apiKey := some "k", isFilesModeEnabled := true,
        filesWorkingDirectory := none, tempFilesWorkingDirectory := some "/here" }
      "" (fun _ => StatOutcome.notDir) "/cwd" rfl).1,
   (c5_disable_saves
      { apiKey := some "k", isFilesModeEnabled := true,
        filesWorkingDirectory := none, tempFilesWorkingDirectory := some "/here" }
      "" (fun _ => StatOutcome.notDir) "/cwd" rfl).2.2.1 (by decide)⟩

/-! ## C6 -/

/-- C6: the claim (matching the code's own comment, which says the kept
directory will be used on re-enabling) states that toggling file mode
off and then on restores the persisted working directory without
re-prompting.  The code keeps the directory on disabling but then
unconditionally asks the `Enter full path ... or type 'this_folder'`
question on re-enabling, for every possible user input: the persisted
directory is not restored without a prompt. -/
theorem c6_toggle_off_on_reprompts :
    ∀ (input cwd : String) (stat : String → StatOutcome),
      (toggleFilesMode
          { apiKey := some "k", isFilesModeEnabled := true,
            filesWorkingDirectory := some "/data", tempFilesWorkingDirectory := none }
          "" stat cwd).state.isFilesModeEnabled = false ∧
      (toggleFilesMode
          { apiKey := some "k", isFilesModeEnabled := true,
            filesWorkingDirectory := some "/data", tempFilesWorkingDirectory := none }
          "" stat cwd).state.filesWorkingDirectory = some "/data" ∧
      (toggleFilesMode
          (toggleFilesMode
            { apiKey := some "k", isFilesModeEnabled := true,
              filesWorkingDirectory := some "/data", tempFilesWorkingDirectory := none }
            "" stat cwd).state
          input stat cwd).promptedForDirectory = true := by
  intro input cwd stat
  refine ⟨rfl, rfl, ?_⟩
  have h1 : (toggleFilesMode
      { apiKey := some "k", isFilesModeEnabled := true,
        filesWorkingDirectory := some "/data", tempFilesWorkingDirectory := none }
      "" stat cwd).state =
      { apiKey := some "k", isFilesModeEnabled := false,
        filesWorkingDirectory := some "/data", tempFilesWorkingDirectory := none } := rfl
  rw [h1]
  simp only [toggleFilesMode, Bool.false_eq_true, if_false]
  repeat' split
  all_goals rfl

/-! ## C9 -/

/-- C9: a temporarily chosen working directory is never persisted: for
every save of the configuration, if the temporary working directory is
set, the saved configuration contains no working-directory path. -/
theorem c9_temp_never_persisted :
    ∀ st : SessionState, truthy st.tempFilesWorkingDirectory = true →
      (saveConfig st).filesWorkingDirectory = none := by
  intro st h
  simp [saveConfig, h]

/-- Witness for C9 at a concrete state with the temporary sentinel
active. -/
theorem c9_temp_never_persisted_witness :
    (saveConfig { apiKey := some "k", isFilesModeEnabled := true,
                  filesWorkingDirectory := some "/data",
                  tempFilesWorkingDirectory := some "/here" }).filesWorkingDirectory = none :=
  c9_temp_never_persisted
    { apiKey := some "k", isFilesModeEnabled := true,
      filesWorkingDirectory := some "/data", tempFilesWorkingDirectory := some "/here" }
    (by decide)

/-! ## C10 -/

/-- C10: the claim states that any *non-null* persisted working
directory auto-enables file mode at startup.  This is false for the
empty string: it is non-null but falsy, so `config.filesWorkingDirectory
|| null` discards it and the session starts with file mode disabled. -/
theorem c10_load_counterexample :
    ((some "" : Option String) ≠ none) ∧
    (loadConfig (some { apiKey := none, filesWorkingDirectory := some "" })).isFilesModeEnabled
      = false :=
  ⟨by decide, by decide⟩

/-- C10 (amended): loading a persisted configuration whose
working-directory value is truthy (a non-empty string) enables file
capability for the session without any user action, and installs that
directory. -/
theorem c10_load_auto_enables :
    ∀ config : RawConfig, truthy config.filesWorkingDirectory = true →
      (loadConfig (some config)).isFilesModeEnabled = true ∧
      (loadConfig (some config)).filesWorkingDirectory = config.filesWorkingDirectory := by
  intro config h
  simp [loadConfig, h]

/-- Witness for C10 (amended) at a concrete configuration. -/
theorem c10_load_auto_enables_witness :
    (loadConfig (some { apiKey := none, filesWorkingDirectory := some "/data" })).isFilesModeEnabled
        = true ∧
    (loadConfig (some { apiKey := none, filesWorkingDirectory := some "/data" })).filesWorkingDirectory
        = some "/data" :=
  c10_load_auto_enables { apiKey := none, filesWorkingDirectory := some "/data" } (by decide)

end Zeno

namespace Zeno

/-! ## Helper lemmas for C7: JavaScript trim preserves substring
containment -/

theorem string_data_eq_nil {s : String} (h : s.data = []) : s = "" := by
  cases s
  simp only at h
  subst h
  rfl

theorem string_ne_empty_iff (s : String) : s ≠ "" ↔ s.data ≠ [] := by
  constructor
  · intro h hd
    exact h (string_data_eq_nil hd)
  · intro h he
    rw [he] at h
    exact h rfl

theorem data_append_eq (s t : String) : (s ++ t).data = s.data ++ t.data := by
  cases s
  cases t
  rfl

theorem infix_dropWhile_of_head {x l : List Char} (p : Char → Bool)
    (hx : x <:+: l) (hne : x ≠ [])
    (hh : ∀ c, x.head? = some c → p c = false) : x <:+: l.dropWhile p := by
  induction l with
  | nil =>
    rw [ List.infix_nil] at hx
    exact absurd hx hne
  | cons a t ih =>
    rw [List.dropWhile_cons]
    by_cases hp : p a = true
    · rw [if_pos hp]
      apply ih
      obtain ⟨s, u, hsu⟩ := hx
      cases s with
      | nil =>
        cases x with
        | nil => exact absurd rfl hne
        | cons b x' =>
          simp only [List.nil_append, List.cons_append, List.cons.injEq] at hsu
          have hb := hh b rfl
          rw [hsu.1] at hb
          rw [hb] at hp
          exact absurd hp (by simp)
      | cons c s' =>
        simp only [List.cons_append, List.cons.injEq] at hsu
        exact ⟨s', u, hsu.2⟩
    · rw [if_neg hp]
      exact hx

theorem trimRightChars_isPrefix (l : List Char) : trimRightChars l <+: l := by
  have h := List.dropWhile_suffix (l := l.reverse) (p := isJsWhitespace)
  have h2 := List.reverse_prefix.mpr h
  simpa [trimRightChars] using h2

theorem trimChars_isInfix_self (l : List Char) : trimChars l <:+: l := by
  obtain ⟨t, ht⟩ := List.dropWhile_suffix (l := trimRightChars l) (p := isJsWhitespace)
  obtain ⟨u, hu⟩ := trimRightChars_isPrefix l
  refine ⟨t, u, ?_⟩
  rw [show trimChars l = (trimRightChars l).dropWhile isJsWhitespace from rfl, ht, hu]

theorem head?_trimChars_false (l : List Char) :
    ∀ c, (trimChars l).head? = some c → isJsWhitespace c = false := by
  intro c hc
  have h := List.head?_dropWhile_not isJsWhitespace (trimRightChars l)
  rw [show trimChars l = (trimRightChars l).dropWhile isJsWhitespace from rfl] at hc
  rw [hc] at h
  exact h

theorem getLast?_trimChars_false (l : List Char) :
    ∀ c, (trimChars l).getLast? = some c → isJsWhitespace c = false := by
  intro c hc
  obtain ⟨t, ht⟩ := List.dropWhile_suffix (l := trimRightChars l) (p := isJsWhitespace)
  have h2 : (trimRightChars l).getLast? = some c := by
    rw [← ht, List.getLast?_append]
    rw [show trimChars l = (trimRightChars l).dropWhile isJsWhitespace from rfl] at hc
    rw [hc]
    rfl
  have h3 : (l.reverse.dropWhile isJsWhitespace).head? = some c := by
    rw [show trimRightChars l = (l.reverse.dropWhile isJsWhitespace).reverse from rfl,
        List.getLast?_reverse] at h2
    exact h2
  have h4 := List.head?_dropWhile_not isJsWhitespace l.reverse
  rw [h3] at h4
  exact h4

theorem trimChars_infix_trimChars {x l : List Char} (h : x <:+: l) :
    trimChars x <:+: trimChars l := by
  by_cases hne : trimChars x = []
  · rw [hne]
    exact ⟨[], trimChars l, rfl⟩
  · have hx : trimChars x <:+: l := (trimChars_isInfix_self x).trans h
    have h1 : trimChars x <:+: trimRightChars l := by
      have hrev : (trimChars x).reverse <:+: l.reverse := List.reverse_infix.mpr hx
      have h2 : (trimChars x).reverse <:+: l.reverse.dropWhile isJsWhitespace := by
        apply infix_dropWhile_of_head isJsWhitespace hrev (by simpa using hne)
        intro c hc
        rw [List.head?_reverse] at hc
        exact getLast?_trimChars_false x c hc
      have h3 := List.reverse_infix.mpr h2
      simpa [trimRightChars] using h3
    exact infix_dropWhile_of_head isJsWhitespace h1 hne (head?_trimChars_false x)

theorem data_infix_of_eq_append {whole pre mid post : String}
    (h : whole.data = pre.data ++ mid.data ++ post.data) :
    mid.data <:+: whole.data :=
  ⟨pre.data, post.data, h.symm⟩

theorem whole_ne_empty_of_parts {whole pre mid post : String}
    (h : whole.data = pre.data ++ mid.data ++ post.data)
    (hne : pre.data ≠ [] ∨ mid.data ≠ [] ∨ post.data ≠ []) : whole ≠ "" := by
  rw [string_ne_empty_iff, h]
  intro hx
  simp only [List.append_eq_nil] at hx
  rcases hne with h1 | h1 | h1 <;> simp_all

theorem execPromise_stdout (cb : ExecCallback) :
    (execPromise cb).stdout = cb.stdout := by
  cases h : cb.error <;> simp [execPromise, h]

end Zeno

namespace Zeno

/-! ## C7 -/

/-- C7: the claim quotes the fixed no-output message as
"command executed, no output produced." but the code produces it with a
capital C: for a successful command with no output at all, the outcome
is "Command executed, no output produced.", which is not the quoted
string. -/
theorem c7_message_counterexample :
    runShellCommand "/work" (.str "true") { error := none, stdout := "", stderr := "" } =
      "Command executed, no output produced." ∧
    runShellCommand "/work" (.str "true") { error := none, stdout := "", stderr := "" } ≠
      "command executed, no output produced." :=
  ⟨by decide, by decide⟩

/-- C7 (amended): `runShellCommand` is a total function on outcomes
(never throws): it fails descriptively when the command text is empty
or not a string, and for every other command string — including
commands that exit non-zero or write to both output streams — it
returns a composed outcome string containing (after JavaScript
trimming) whatever stdout, stderr and execution-error text are present;
if there is no output at all it reports the fixed message
"Command executed, no output produced." (capital C). -/
theorem c7_run_shell_command :
    ∀ (basePath : String) (cb : ExecCallback),
      runShellCommand basePath .nonStr cb = "Error: Invalid command for run_command." ∧
      runShellCommand basePath (.str "") cb = "Error: Invalid command for run_command." ∧
      ∀ c : String, c ≠ "" →
        (cb.stdout ≠ "" →
          (jsTrim cb.stdout).data <:+: (runShellCommand basePath (.str c) cb).data) ∧
        ((execPromise cb).stderr ≠ "" →
          (jsTrim (execPromise cb).stderr).data <:+:
            (runShellCommand basePath (.str c) cb).data) ∧
        (∀ m, cb.error = some m →
          (jsTrim m).data <:+: (runShellCommand basePath (.str c) cb).data) ∧
        (cb.error = none → cb.stdout = "" → cb.stderr = "" →
          runShellCommand basePath (.str c) cb =
            "Command executed, no output produced.") := by
  intro basePath cb
  refine ⟨rfl, by simp [runShellCommand], ?_⟩
  intro c hc
  have hrun : runShellCommand basePath (.str c) cb =
      jsTrim (if composedOutput (execPromise cb) = "" then
                "Command executed, no output produced."
              else composedOutput (execPromise cb)) := by
    simp only [runShellCommand, if_neg hc]
  refine ⟨?_, ?_, ?_, ?_⟩
  · intro hstd
    have hmid : (composedOutput (execPromise cb)).data =
        ("Stdout:\n").data ++ cb.stdout.data ++
          ("\n" ++ stderrPart (execPromise cb) ++ execErrorPart (execPromise cb)).data := by
      simp [composedOutput, stdoutPart, execPromise_stdout, hstd, data_append_eq,
        List.append_assoc]
    have hne : composedOutput (execPromise cb) ≠ "" :=
      whole_ne_empty_of_parts hmid
        (Or.inr (Or.inl ((string_ne_empty_iff cb.stdout).mp hstd)))
    rw [hrun, if_neg hne]
    exact trimChars_infix_trimChars (data_infix_of_eq_append hmid)
  · intro hse
    have hmid : (composedOutput (execPromise cb)).data =
        (stdoutPart (execPromise cb) ++ "Stderr:\n").data ++
          (execPromise cb).stderr.data ++ ("\n" ++ execErrorPart (execPromise cb)).data := by
      simp [composedOutput, stderrPart, hse, data_append_eq, List.append_assoc]
    have hne : composedOutput (execPromise cb) ≠ "" :=
      whole_ne_empty_of_parts hmid
        (Or.inr (Or.inl ((string_ne_empty_iff (execPromise cb).stderr).mp hse)))
    rw [hrun, if_neg hne]
    exact trimChars_infix_trimChars (data_infix_of_eq_append hmid)
  · intro m hm
    have hr : execPromise cb =
        { success := false, stdout := cb.stdout,
          stderr := if cb.stderr = "" then m else cb.stderr, error := some m } := by
      simp [execPromise, hm]
    have hmid : (composedOutput (execPromise cb)).data =
        (stdoutPart (execPromise cb) ++ stderrPart (execPromise cb) ++
          "Execution Error: ").data ++ m.data ++ ("\n").data := by
      rw [composedOutput, show execErrorPart (execPromise cb) =
        "Execution Error: " ++ m ++ "\n" from by rw [hr]; rfl]
      simp [data_append_eq, List.append_assoc]
    have hne : composedOutput (execPromise cb) ≠ "" :=
      whole_ne_empty_of_parts hmid (Or.inr (Or.inr (by decide)))
    rw [hrun, if_neg hne]
    exact trimChars_infix_trimChars (data_infix_of_eq_append hmid)
  · intro h1 h2 h3
    have hr : execPromise cb =
        { success := true, stdout := "", stderr := "", error := none } := by
      simp [execPromise, h1, h2, h3]
    have hco : composedOutput (execPromise cb) = "" := by
      rw [hr]
      rfl
    rw [hrun, if_pos hco]
    decide

/-- Witness for C7 (amended): a command that errors with output on both
streams has its stdout and error text inside the returned outcome, and
a silent successful command yields the fixed message. -/
theorem c7_run_shell_command_witness :
    (jsTrim "out\n").data <:+: (runShellCommand "/w" (.str "ls")
        { error := some "boom", stdout := "out\n", stderr := "err\n" }).data ∧
    (jsTrim "boom").data <:+: (runShellCommand "/w" (.str "ls")
        { error := some "boom", stdout := "out\n", stderr := "err\n" }).data ∧
    runShellCommand "/w" (.str "true") { error := none, stdout := "", stderr := "" } =
      "Command executed, no output produced." :=
  ⟨((c7_run_shell_command "/w"
        { error := some "boom", stdout := "out\n", stderr := "err\n" }).2.2 "ls"
        (by decide)).1 (by decide),
   (((c7_run_shell_command "/w"
        { error := some "boom", stdout := "out\n", stderr := "err\n" }).2.2 "ls"
        (by decide)).2.2.1 "boom" rfl),
   ((c7_run_shell_command "/w"
        { error := none, stdout := "", stderr := "" }).2.2 "true"
        (by decide)).2.2.2 rfl rfl rfl⟩

end Zeno
